import Mathlib

/-!
Verification of the solodit-mcp request/response translation layer
(`src/index.ts`): the filter builder of the `search_findings` tool, the
`searchSoloditFindings` remote-call wrapper, the `formatFinding` renderer,
and the `get_finding_by_id` handler.

The TypeScript source is shallowly embedded: `undefined` optional fields are
`Option.none`, JavaScript string truthiness (`if (x)` skipping `undefined`,
`null` and `""`) is modelled explicitly, machine strings are Lean `String`
(with `String.take` for `substring(0, n)`), and thrown errors are the error
side of `Except`.
-/

set_option autoImplicit false
set_option maxRecDepth 8192

namespace SoloditMcp

/-- The impact enumeration of the API: `"HIGH" | "MEDIUM" | "LOW" | "GAS"`. -/
inductive Impact where
  | HIGH
  | MEDIUM
  | LOW
  | GAS
deriving DecidableEq, Repr

/-- The `reportedDays` enumeration of the `search_findings` input schema:
`"30" | "60" | "90" | "alltime"`. -/
inductive ReportedDays where
  | d30
  | d60
  | d90
  | alltime
deriving DecidableEq, Repr

/-- The `sortField` enumeration: `"Recency" | "Quality" | "Rarity"`. -/
inductive SortField where
  | Recency
  | Quality
  | Rarity
deriving DecidableEq, Repr

/-- The `sortDirection` enumeration: `"Desc" | "Asc"`. -/
inductive SortDirection where
  | Desc
  | Asc
deriving DecidableEq, Repr

/-- A `{ value: string; label?: string }` wrapper record, as used by the
list-valued fields of `SoloditFilters`. -/
structure ValueLabel where
  value : String
  label : Option String
deriving DecidableEq, Repr

/-- The `reported` filter value: `{ value: "30" | "60" | "90" | "after" |
"alltime"; label?: string }`.  Only the values reachable from the input
schema (`reportedDays`) are modelled. -/
structure ReportedValue where
  value : ReportedDays
  label : Option String
deriving DecidableEq, Repr

/-- The `SoloditFilters` interface of `src/index.ts`: every field is
optional, `none` meaning the key is absent from the object. -/
structure SoloditFilters where
  keywords : Option String := none
  impact : Option (List Impact) := none
  firms : Option (List ValueLabel) := none
  tags : Option (List ValueLabel) := none
  protocol : Option String := none
  protocolCategory : Option (List ValueLabel) := none
  forked : Option (List ValueLabel) := none
  languages : Option (List ValueLabel) := none
  user : Option String := none
  minFinders : Option String := none
  maxFinders : Option String := none
  reported : Option ReportedValue := none
  qualityScore : Option ℚ := none
  rarityScore : Option ℚ := none
  sortField : Option SortField := none
  sortDirection : Option SortDirection := none
deriving DecidableEq, Repr

/-- The number of keys present on a `SoloditFilters` object
(`Object.keys(filters).length` in the handler). -/
def SoloditFilters.numKeys (f : SoloditFilters) : Nat :=
  (if f.keywords.isSome then 1 else 0) +
  (if f.impact.isSome then 1 else 0) +
  (if f.firms.isSome then 1 else 0) +
  (if f.tags.isSome then 1 else 0) +
  (if f.protocol.isSome then 1 else 0) +
  (if f.protocolCategory.isSome then 1 else 0) +
  (if f.forked.isSome then 1 else 0) +
  (if f.languages.isSome then 1 else 0) +
  (if f.user.isSome then 1 else 0) +
  (if f.minFinders.isSome then 1 else 0) +
  (if f.maxFinders.isSome then 1 else 0) +
  (if f.reported.isSome then 1 else 0) +
  (if f.qualityScore.isSome then 1 else 0) +
  (if f.rarityScore.isSome then 1 else 0) +
  (if f.sortField.isSome then 1 else 0) +
  (if f.sortDirection.isSome then 1 else 0)

/-- The `SoloditRequest` interface: `{ page?, pageSize?, filters? }`. -/
structure SoloditRequest where
  page : Option Nat := none
  pageSize : Option Nat := none
  filters : Option SoloditFilters := none
deriving DecidableEq, Repr

/-- The arguments of the `search_findings` tool after schema validation
(every field `.optional()` in the zod input schema; `none` = the caller
did not supply the field).  `page` and `pageSize` are the pagination
fields; the other fifteen are the filter fields. -/
structure SearchArgs where
  keywords : Option String := none
  impact : Option (List Impact) := none
  firms : Option (List String) := none
  tags : Option (List String) := none
  protocol : Option String := none
  protocolCategory : Option (List String) := none
  languages : Option (List String) := none
  user : Option String := none
  minFinders : Option String := none
  maxFinders : Option String := none
  reportedDays : Option ReportedDays := none
  qualityScore : Option ℚ := none
  rarityScore : Option ℚ := none
  sortField : Option SortField := none
  sortDirection : Option SortDirection := none
  page : Option Nat := none
  pageSize : Option Nat := none
deriving DecidableEq, Repr

/-- How many of the fifteen filter fields of the input are set (present at
all, regardless of value). -/
def SearchArgs.numFilterFieldsSet (a : SearchArgs) : Nat :=
  (if a.keywords.isSome then 1 else 0) +
  (if a.impact.isSome then 1 else 0) +
  (if a.firms.isSome then 1 else 0) +
  (if a.tags.isSome then 1 else 0) +
  (if a.protocol.isSome then 1 else 0) +
  (if a.protocolCategory.isSome then 1 else 0) +
  (if a.languages.isSome then 1 else 0) +
  (if a.user.isSome then 1 else 0) +
  (if a.minFinders.isSome then 1 else 0) +
  (if a.maxFinders.isSome then 1 else 0) +
  (if a.reportedDays.isSome then 1 else 0) +
  (if a.qualityScore.isSome then 1 else 0) +
  (if a.rarityScore.isSome then 1 else 0) +
  (if a.sortField.isSome then 1 else 0) +
  (if a.sortDirection.isSome then 1 else 0)

/-- JavaScript truthiness of an optional string: `if (x)` runs its branch
only when `x` is present and non-empty (`undefined`, `null` and `""` are
falsy). -/
def truthyStr (o : Option String) : Option String :=
  match o with
  | some s => if s.isEmpty then none else some s
  | none => none

/-- Element-wise wrapping of a free-text list into `{ value: element }`
records, as in `args.firms.map((f) => ({ value: f }))`. -/
def wrapValues (l : List String) : List ValueLabel :=
  l.map (fun s => { value := s, label := none })

/-- The filter-building block of the `search_findings` handler
(`src/index.ts` lines 238-264): each `if (args.x) filters.x = ...`
assignment, with JavaScript truthiness.  Arrays (even empty ones) and
enumeration strings are truthy whenever present; plain strings are truthy
only when non-empty; the two score thresholds use an explicit
`!== undefined` check, so `0` counts as set. -/
def buildFilters (args : SearchArgs) : SoloditFilters where
  keywords := truthyStr args.keywords
  impact := args.impact
  firms := args.firms.map wrapValues
  tags := args.tags.map wrapValues
  protocol := truthyStr args.protocol
  protocolCategory := args.protocolCategory.map wrapValues
  forked := none
  languages := args.languages.map wrapValues
  user := truthyStr args.user
  minFinders := truthyStr args.minFinders
  maxFinders := truthyStr args.maxFinders
  reported := args.reportedDays.map (fun d => { value := d, label := none })
  qualityScore := args.qualityScore
  rarityScore := args.rarityScore
  sortField := args.sortField
  sortDirection := args.sortDirection

/-- The defaulting `args.page || 1` / `args.pageSize || 20`: JavaScript `||` on an optional
number falls back when the value is absent (or `0`, which the zod schema
already excludes via `.min(1)`). -/
def jsOrNat (o : Option Nat) (dflt : Nat) : Nat :=
  match o with
  | some n => if n = 0 then dflt else n
  | none => dflt

/-- The request assembled by the `search_findings` handler
(`src/index.ts` lines 266-273): page and pageSize defaulted, and the
`filters` key attached only when the built filters object has at least
one key. -/
def buildSearchRequest (args : SearchArgs) : SoloditRequest :=
  let filters := buildFilters args
  { page := some (jsOrNat args.page 1)
    pageSize := some (jsOrNat args.pageSize 20)
    filters := if filters.numKeys > 0 then some filters else none }

/-- Whether an optional string field is set to a truthy value: present and
non-empty.  This is the condition under which the builder's
`if (args.x) ...` branches for plain string fields fire. -/
def truthySet (o : Option String) : Bool :=
  match o with
  | some s => !s.isEmpty
  | none => false

/-- How many of the fifteen filter fields of the input the builder treats
as present: for the five plain string fields (keywords, protocol, user,
minFinders, maxFinders) the value must be non-empty (JavaScript
truthiness); for the list, enumeration and score fields mere presence
suffices (lists and enumeration strings of the schema are always truthy,
and the scores are compared with `!== undefined`). -/
def SearchArgs.numEffectiveFilterFields (a : SearchArgs) : Nat :=
  (if truthySet a.keywords then 1 else 0) +
  (if a.impact.isSome then 1 else 0) +
  (if a.firms.isSome then 1 else 0) +
  (if a.tags.isSome then 1 else 0) +
  (if truthySet a.protocol then 1 else 0) +
  (if a.protocolCategory.isSome then 1 else 0) +
  (if a.languages.isSome then 1 else 0) +
  (if truthySet a.user then 1 else 0) +
  (if truthySet a.minFinders then 1 else 0) +
  (if truthySet a.maxFinders then 1 else 0) +
  (if a.reportedDays.isSome then 1 else 0) +
  (if a.qualityScore.isSome then 1 else 0) +
  (if a.rarityScore.isSome then 1 else 0) +
  (if a.sortField.isSome then 1 else 0) +
  (if a.sortDirection.isSome then 1 else 0)

/-- JavaScript `x || dflt` on a nullable/optional string: the fallback is
used when `x` is `null`/`undefined` or the empty string. -/
def jsOr (o : Option String) (dflt : String) : String :=
  match o with
  | some s => if s.isEmpty then dflt else s
  | none => dflt

/-- JavaScript `s || dflt` on a plain string: the fallback is used exactly
when `s` is empty. -/
def orElseIfEmpty (s dflt : String) : String :=
  if s.isEmpty then dflt else s

/-- The string form of an impact level, as interpolated into the output. -/
def Impact.render : Impact → String
  | .HIGH => "HIGH"
  | .MEDIUM => "MEDIUM"
  | .LOW => "LOW"
  | .GAS => "GAS"

/-- The `{ wardens_warden: { handle } }` nesting of
`issues_issue_finders` elements. -/
structure WardenRecord where
  handle : String
deriving DecidableEq, Repr

/-- One element of `issues_issue_finders`. -/
structure IssueFinder where
  wardens_warden : WardenRecord
deriving DecidableEq, Repr

/-- The `{ tags_tag: { title } }` nesting of `issues_issuetagscore`
elements. -/
structure TagRecord where
  title : String
deriving DecidableEq, Repr

/-- One element of `issues_issuetagscore`. -/
structure IssueTagScore where
  tags_tag : TagRecord
deriving DecidableEq, Repr

/-- The `SoloditFinding` interface of `src/index.ts`.  Nullable fields are
`Option`; numeric scores are modelled as rationals (no claim depends on
the decimal rendering of a score, and the concrete instances below use
integer values, where `toString` agrees with JavaScript). -/
structure SoloditFinding where
  id : String
  slug : String
  title : String
  content : String
  summary : Option String
  impact : Impact
  quality_score : ℚ
  general_score : ℚ
  report_date : Option String
  firm_name : Option String
  protocol_name : Option String
  finders_count : Nat
  source_link : Option String
  issues_issue_finders : List IssueFinder
  issues_issuetagscore : List IssueTagScore
deriving DecidableEq, Repr

/-- The join `finding.issues_issue_finders.map((f) => f.wardens_warden.handle).join(", ")`. -/
def findersJoined (f : SoloditFinding) : String :=
  String.intercalate ", " (f.issues_issue_finders.map (fun r => r.wardens_warden.handle))

/-- The join `finding.issues_issuetagscore.map((t) => t.tags_tag.title).join(", ")`. -/
def tagsJoined (f : SoloditFinding) : String :=
  String.intercalate ", " (f.issues_issuetagscore.map (fun r => r.tags_tag.title))

/-- The body excerpt of the list-mode block:
`finding.summary || finding.content.substring(0, 500) + "..."`
(`src/index.ts` line 137).  JavaScript `||` falls back both on `null` and
on the empty string, and the `"..."` marker is appended to the
`substring(0, 500)` result unconditionally. -/
def bodyExcerpt (f : SoloditFinding) : String :=
  jsOr f.summary (f.content.take 500 ++ "...")

/-- The field-table rows of the list-mode block of `formatFinding`
(`src/index.ts` lines 126-135), one string per output line. -/
def fieldRowsList (f : SoloditFinding) : List String :=
  [ "**ID:** " ++ f.id
  , "**Slug:** " ++ f.slug
  , "**Protocol:** " ++ jsOr f.protocol_name "N/A"
  , "**Audit Firm:** " ++ jsOr f.firm_name "N/A"
  , "**Quality Score:** " ++ toString f.quality_score ++ "/5"
  , "**Rarity Score:** " ++ toString f.general_score ++ "/5"
  , "**Report Date:** " ++ jsOr f.report_date "N/A"
  , "**Finders:** " ++ orElseIfEmpty (findersJoined f) "N/A" ++
      " (" ++ toString f.finders_count ++ " total)"
  , "**Tags:** " ++ orElseIfEmpty (tagsJoined f) "N/A"
  , "**Source:** " ++ jsOr f.source_link "N/A" ]

/-- The list-mode renderer `formatFinding` (`src/index.ts` lines 115-141): the trimmed template
literal, with the `[impact] title` heading, the field table, the body
excerpt and the trailing separator. -/
def formatFinding (f : SoloditFinding) : String :=
  "## [" ++ f.impact.render ++ "] " ++ f.title ++ "\n\n" ++
    String.intercalate "\n" (fieldRowsList f) ++ "\n\n" ++
    bodyExcerpt f ++ "\n\n---"

/-- The field-table rows of the detail-mode rendering inside the
`get_finding_by_id` handler (`src/index.ts` lines 354-364): the same rows
as list mode except that an `Impact` row appears after `Slug`. -/
def fieldRowsDetail (f : SoloditFinding) : List String :=
  [ "**ID:** " ++ f.id
  , "**Slug:** " ++ f.slug
  , "**Impact:** " ++ f.impact.render
  , "**Protocol:** " ++ jsOr f.protocol_name "N/A"
  , "**Audit Firm:** " ++ jsOr f.firm_name "N/A"
  , "**Quality Score:** " ++ toString f.quality_score ++ "/5"
  , "**Rarity Score:** " ++ toString f.general_score ++ "/5"
  , "**Report Date:** " ++ jsOr f.report_date "N/A"
  , "**Finders:** " ++ orElseIfEmpty (findersJoined f) "N/A" ++
      " (" ++ toString f.finders_count ++ " total)"
  , "**Tags:** " ++ orElseIfEmpty (tagsJoined f) "N/A"
  , "**Source:** " ++ jsOr f.source_link "N/A" ]

/-- The detail-mode rendering of the `get_finding_by_id` handler
(`src/index.ts` lines 351-371): title-only heading, field table, then the
full content body under a `## Content` section. -/
def formatFindingDetail (f : SoloditFinding) : String :=
  "# " ++ f.title ++ "\n\n" ++
    String.intercalate "\n" (fieldRowsDetail f) ++ "\n\n---\n\n## Content\n\n" ++
    f.content

/-- A finding as it may arrive over the wire, before TypeScript's erased
types are trusted: the two nested lists may be `null`/absent.  The static
`SoloditFinding` type declares them as arrays, but nothing at runtime
validates that. -/
structure SoloditFindingRaw where
  id : String
  slug : String
  title : String
  content : String
  summary : Option String
  impact : Impact
  quality_score : ℚ
  general_score : ℚ
  report_date : Option String
  firm_name : Option String
  protocol_name : Option String
  finders_count : Nat
  source_link : Option String
  issues_issue_finders : Option (List IssueFinder)
  issues_issuetagscore : Option (List IssueTagScore)
deriving DecidableEq, Repr

/-- A raw wire finding whose nested lists turned out to be present, seen
as a `SoloditFinding`. -/
def rawToFinding (f : SoloditFindingRaw) (finderList : List IssueFinder)
    (tagList : List IssueTagScore) : SoloditFinding where
  id := f.id
  slug := f.slug
  title := f.title
  content := f.content
  summary := f.summary
  impact := f.impact
  quality_score := f.quality_score
  general_score := f.general_score
  report_date := f.report_date
  firm_name := f.firm_name
  protocol_name := f.protocol_name
  finders_count := f.finders_count
  source_link := f.source_link
  issues_issue_finders := finderList
  issues_issuetagscore := tagList

/-- The renderer `formatFinding` applied to a raw wire finding.  When either nested
list is `null`/absent, the source's `.map(...)` call on it throws a
TypeError at runtime (there is no guard); `none` models that crash. -/
def formatFindingRaw (f : SoloditFindingRaw) : Option String :=
  match f.issues_issue_finders, f.issues_issuetagscore with
  | some finderList, some tagList => some (formatFinding (rawToFinding f finderList tagList))
  | _, _ => none

/-- The fixed field labels of the list-mode field table, in output order. -/
def fieldLabels : List String :=
  [ "**ID:** ", "**Slug:** ", "**Protocol:** ", "**Audit Firm:** "
  , "**Quality Score:** ", "**Rarity Score:** ", "**Report Date:** "
  , "**Finders:** ", "**Tags:** ", "**Source:** " ]

/-- The `metadata` part of a `SoloditResponse`. -/
structure SoloditMetadata where
  totalResults : Nat
  currentPage : Nat
  pageSize : Nat
  totalPages : Nat
  elapsed : ℚ
deriving DecidableEq, Repr

/-- The `rateLimit` part of a `SoloditResponse`. -/
structure RateLimit where
  limit : Nat
  remaining : Nat
  reset : Nat
deriving DecidableEq, Repr

/-- The `SoloditResponse` interface. -/
structure SoloditResponse where
  findings : List SoloditFinding
  metadata : SoloditMetadata
  rateLimit : RateLimit
deriving DecidableEq, Repr

/-- The observable pieces of a `fetch` response that `searchSoloditFindings`
reads.  `jsonMessage` is the result of parsing the body as JSON on the
error path and reading its `message` field (`none` = the body is not valid
JSON, `some none` = valid JSON without a `message` field); `jsonResponse`
is the body read as a `SoloditResponse` on the success path (the source
performs no validation of the parsed value; `none` = not valid JSON). -/
structure HttpResponse where
  ok : Bool
  status : Nat
  statusText : String
  jsonMessage : Option (Option String)
  jsonResponse : Option SoloditResponse
deriving DecidableEq, Repr

/-- The errors `searchSoloditFindings` can throw, one constructor per
throw site: the missing-key check, the non-ok `throw new Error(...)`
(carrying the interpolated status and message part), and the runtime
SyntaxError of `response.json()` on an unparseable success body. -/
inductive InvocationError where
  | configError (message : String)
  | apiError (status : Nat) (messagePart : String)
  | jsonSyntaxError
deriving DecidableEq, Repr

/-- The message of the missing-API-key error (`src/index.ts` lines 88-90). -/
def configErrorMessage : String :=
  "SOLODIT_API_KEY environment variable is not set. Please set it to use the Solodit API."

/-- The message part interpolated after the status code:
`errorData.message || response.statusText`, where `errorData` is the parsed
body or `{}` when parsing failed (`.catch(() => ({}))`). -/
def apiErrorMessagePart (jsonMessage : Option (Option String)) (statusText : String) : String :=
  match jsonMessage with
  | some m => jsOr m statusText
  | none => jsOr none statusText

/-- The assignment `const SOLODIT_API_KEY = process.env.SOLODIT_API_KEY || ""`
(`src/index.ts` line 9): an absent environment variable resolves to the
empty string. -/
def resolveApiKey (env : Option String) : String :=
  jsOr env ""

/-- The remote-call wrapper `searchSoloditFindings` (`src/index.ts` lines 84-112).  The network is
a function from the request to the `fetch` response; the second component
of the result lists the outbound requests actually issued, so that
"no network call was attempted" is expressible. -/
def searchSoloditFindings (apiKey : String)
    (net : SoloditRequest → HttpResponse) (request : SoloditRequest) :
    Except InvocationError SoloditResponse × List SoloditRequest :=
  if apiKey.isEmpty then
    (.error (.configError configErrorMessage), [])
  else
    let response := net request
    if response.ok then
      match response.jsonResponse with
      | some r => (.ok r, [request])
      | none => (.error .jsonSyntaxError, [request])
    else
      (.error (.apiError response.status
        (apiErrorMessagePart response.jsonMessage response.statusText)), [request])

/-- The request built by the `get_finding_by_id` handler
(`src/index.ts` lines 318-324): always `page: 1, pageSize: 1,
filters: { keywords }`. -/
def getFindingByIdRequest (keywords : String) : SoloditRequest where
  page := some 1
  pageSize := some 1
  filters := some { keywords := some keywords }

/-- The fixed not-found message of `get_finding_by_id`
(`src/index.ts` lines 333 and 345). -/
def notFoundText (keywords : String) : String :=
  "No finding found with ID or slug: " ++ keywords

/-- The rendering step of the `get_finding_by_id` handler after the
response arrives: the not-found message on an empty findings list,
otherwise the detail-mode rendering of the first finding (the handler's
second `if (!finding)` guard is unreachable once the list is non-empty). -/
def getFindingByIdRender (keywords : String) (response : SoloditResponse) : String :=
  match response.findings with
  | [] => notFoundText keywords
  | f :: _ => formatFindingDetail f

/-- The full `get_finding_by_id` handler: build the fixed request, call
`searchSoloditFindings`, render.  Errors propagate; the issued-requests
list is passed through. -/
def getFindingById (apiKey : String) (net : SoloditRequest → HttpResponse)
    (keywords : String) : Except InvocationError String × List SoloditRequest :=
  match searchSoloditFindings apiKey net (getFindingByIdRequest keywords) with
  | (.ok resp, calls) => (.ok (getFindingByIdRender keywords resp), calls)
  | (.error e, calls) => (.error e, calls)

/-- A constant network: every request receives the same response. -/
def constNet (r : HttpResponse) : SoloditRequest → HttpResponse :=
  fun _ => r

/-- Input with the single filter field `keywords` present but empty. -/
def oneEmptyKeyword : SearchArgs := { keywords := some "" }

/-- Input with the single filter field `minFinders` present but empty. -/
def oneEmptyMinFinders : SearchArgs := { minFinders := some "" }

/-- Input with the single filter field `keywords` present and non-empty. -/
def oneKeyword : SearchArgs := { keywords := some "reentrancy" }

/-- A finding with no summary and a short content body. -/
def shortContentFinding : SoloditFinding where
  id := "1287"
  slug := "short-example"
  title := "Short example"
  content := "Short content."
  summary := none
  impact := Impact.LOW
  quality_score := 2
  general_score := 1
  report_date := none
  firm_name := none
  protocol_name := none
  finders_count := 1
  source_link := none
  issues_issue_finders := [{ wardens_warden := { handle := "carol" } }]
  issues_issuetagscore := []

/-- A 500-character content body. -/
def longContent : String :=
  String.mk (List.replicate 500 (Char.ofNat 120))

/-- A finding with no summary and a content body of exactly 500
characters. -/
def boundaryFinding : SoloditFinding where
  id := "2048"
  slug := "boundary-example"
  title := "Boundary example"
  content := longContent
  summary := none
  impact := Impact.MEDIUM
  quality_score := 3
  general_score := 3
  report_date := none
  firm_name := none
  protocol_name := none
  finders_count := 0
  source_link := none
  issues_issue_finders := []
  issues_issuetagscore := []

/-- A finding whose summary is present but is the empty string. -/
def emptySummaryFinding : SoloditFinding where
  id := "3003"
  slug := "empty-summary-example"
  title := "Empty summary example"
  content := "Body text of the empty-summary example."
  summary := some ""
  impact := Impact.HIGH
  quality_score := 4
  general_score := 2
  report_date := some "2024-03-01"
  firm_name := some "ExampleFirm"
  protocol_name := some "ExampleProtocol"
  finders_count := 2
  source_link := some "https://example.invalid/report"
  issues_issue_finders := [{ wardens_warden := { handle := "dave" } }]
  issues_issuetagscore := [{ tags_tag := { title := "Oracle" } }]

/-- A fully populated finding used to compare the two rendering modes. -/
def comparisonFinding : SoloditFinding where
  id := "4107"
  slug := "comparison-example"
  title := "Comparison example"
  content := "Body of the comparison example."
  summary := some "A summary."
  impact := Impact.GAS
  quality_score := 5
  general_score := 4
  report_date := some "2024-05-20"
  firm_name := some "OtherFirm"
  protocol_name := some "OtherProtocol"
  finders_count := 1
  source_link := some "https://example.invalid/other"
  issues_issue_finders := [{ wardens_warden := { handle := "erin" } }]
  issues_issuetagscore := [{ tags_tag := { title := "Access Control" } }]

/-- A raw wire finding whose tag list is `null`. -/
def nullTagListFinding : SoloditFindingRaw where
  id := "5500"
  slug := "null-tags-example"
  title := "Null tags example"
  content := "Body of the null-tags example."
  summary := none
  impact := Impact.LOW
  quality_score := 1
  general_score := 1
  report_date := none
  firm_name := none
  protocol_name := none
  finders_count := 0
  source_link := none
  issues_issue_finders := some []
  issues_issuetagscore := none

/-- A raw wire finding whose nested lists are present but empty. -/
def emptyListsFinding : SoloditFindingRaw where
  id := "6600"
  slug := "empty-lists-example"
  title := "Empty lists example"
  content := "Body of the empty-lists example."
  summary := none
  impact := Impact.MEDIUM
  quality_score := 2
  general_score := 2
  report_date := none
  firm_name := none
  protocol_name := none
  finders_count := 3
  source_link := none
  issues_issue_finders := some []
  issues_issuetagscore := some []

/-- Metadata of an empty mocked response. -/
def emptyMetadata : SoloditMetadata where
  totalResults := 0
  currentPage := 1
  pageSize := 1
  totalPages := 0
  elapsed := 0

/-- Rate-limit block of a mocked response. -/
def sampleRateLimit : RateLimit where
  limit := 100
  remaining := 99
  reset := 0

/-- A mocked successful response with zero findings. -/
def emptyFindingsResponse : SoloditResponse where
  findings := []
  metadata := emptyMetadata
  rateLimit := sampleRateLimit

/-- A mocked HTTP exchange: success carrying the empty-findings body. -/
def okEmptyHttp : HttpResponse where
  ok := true
  status := 200
  statusText := "OK"
  jsonMessage := some none
  jsonResponse := some emptyFindingsResponse

/-- A mocked failing HTTP exchange whose body is not valid JSON. -/
def parseFailureHttp : HttpResponse where
  ok := false
  status := 500
  statusText := "Internal Server Error"
  jsonMessage := none
  jsonResponse := none

/-- A mocked 429 exchange whose body is valid JSON with a message field. -/
def rateLimitedHttp : HttpResponse where
  ok := false
  status := 429
  statusText := "Too Many Requests"
  jsonMessage := some (some "rate limited")
  jsonResponse := none


/-! ## Helper lemmas -/

/-- The builder's truthiness branch for a plain string field fires exactly
when the field is present and non-empty. -/
theorem isSome_truthyStr (o : Option String) : (truthyStr o).isSome = truthySet o := by
  cases o with
  | none => rfl
  | some s => cases h : s.isEmpty <;> simp [truthyStr, truthySet, h]

/-- The number of keys on the built filters object equals the number of
filter fields the builder treats as present. -/
theorem numKeys_buildFilters (a : SearchArgs) :
    (buildFilters a).numKeys = a.numEffectiveFilterFields := by
  simp [SoloditFilters.numKeys, buildFilters, SearchArgs.numEffectiveFilterFields,
    isSome_truthyStr]

/-- A filter field the builder treats as present is in particular set. -/
theorem numEffective_le_numSet (a : SearchArgs) :
    a.numEffectiveFilterFields ≤ a.numFilterFieldsSet := by
  have h : ∀ o : Option String,
      (if truthySet o then 1 else 0) ≤ (if o.isSome then 1 else 0) := by
    intro o
    cases o with
    | none => simp [truthySet]
    | some s => cases h : s.isEmpty <;> simp [truthySet, h]
  unfold SearchArgs.numEffectiveFilterFields SearchArgs.numFilterFieldsSet
  gcongr <;> exact h _

/-- Taking at least as many characters as a string holds returns the
string unchanged. -/
theorem take_of_length_le (s : String) (n : Nat) (h : s.length ≤ n) : s.take n = s := by
  cases s with
  | mk data =>
    rw [String.take_eq]
    congr 1
    exact List.take_of_length_le h

/-- One invocation of the remote-call wrapper issues either no outbound
request (the configuration failure) or exactly the given request. -/
theorem calls_of_search (apiKey : String) (net : SoloditRequest → HttpResponse)
    (req : SoloditRequest) :
    (searchSoloditFindings apiKey net req).2 = [] ∨
    (searchSoloditFindings apiKey net req).2 = [req] := by
  by_cases hk : apiKey.isEmpty
  · left
    simp [searchSoloditFindings, hk]
  · right
    rcases hok : (net req).ok
    · simp [searchSoloditFindings, hk, hok]
    · rcases hjr : (net req).jsonResponse <;> simp [searchSoloditFindings, hk, hok, hjr]

/-- The `get_finding_by_id` handler issues exactly the calls of its single
`searchSoloditFindings` invocation. -/
theorem calls_of_getFindingById (apiKey : String) (net : SoloditRequest → HttpResponse)
    (kw : String) :
    (getFindingById apiKey net kw).2 =
      (searchSoloditFindings apiKey net (getFindingByIdRequest kw)).2 := by
  unfold getFindingById
  rcases hs : searchSoloditFindings apiKey net (getFindingByIdRequest kw) with ⟨res, calls⟩
  cases res <;> simp

/-! ## C1 -/

/-- C1 (amended): with zero filter fields set the produced request has no
`filters` key at all; and with at least one filter field set to a value
the builder treats as present (non-empty for the plain string fields
keywords/protocol/user/minFinders/maxFinders, any present value for list,
enumeration and score fields), the `filters` key is present. -/
theorem filters_key_presence (a : SearchArgs) :
    (a.numFilterFieldsSet = 0 → (buildSearchRequest a).filters = none) ∧
    (0 < a.numEffectiveFilterFields → ((buildSearchRequest a).filters).isSome = true) := by
  constructor
  · intro h
    have h0 : a.numEffectiveFilterFields = 0 :=
      Nat.le_antisymm (h ▸ numEffective_le_numSet a) (Nat.zero_le _)
    simp [buildSearchRequest, numKeys_buildFilters, h0]
  · intro h
    simp [buildSearchRequest, numKeys_buildFilters, h]

/-- C1 witness: the all-absent input yields no `filters` key, and a
non-empty keywords input yields one. -/
theorem filters_key_presence_witness :
    (SearchArgs.numFilterFieldsSet {} = 0 ∧ (buildSearchRequest {}).filters = none) ∧
    (0 < oneKeyword.numEffectiveFilterFields ∧
      ((buildSearchRequest oneKeyword).filters).isSome = true) :=
  ⟨⟨by decide, (filters_key_presence {}).1 (by decide)⟩,
   ⟨by decide, (filters_key_presence oneKeyword).2 (by decide)⟩⟩

/-- C1 counterexample: with the single filter field `keywords` set to the
empty string — one filter field set — the produced request still has no
`filters` key, against the claim's second half. -/
theorem filters_key_cex :
    oneEmptyKeyword.numFilterFieldsSet = 1 ∧
    (buildSearchRequest oneEmptyKeyword).filters = none := by
  exact ⟨by decide, by decide⟩

/-! ## C4 -/

/-- C4 (amended): with exactly one filter field set to a value the builder
treats as present (for plain string fields: non-empty; empty lists, zero
scores and every enumeration value all count), the produced `filters`
object has exactly one key, and each output key is present exactly when
the corresponding input field is effectively set. -/
theorem single_filter_key (a : SearchArgs) (h : a.numEffectiveFilterFields = 1) :
    ∃ f, (buildSearchRequest a).filters = some f ∧ f.numKeys = 1 ∧
      f.keywords.isSome = truthySet a.keywords ∧
      f.impact.isSome = a.impact.isSome ∧
      f.firms.isSome = a.firms.isSome ∧
      f.tags.isSome = a.tags.isSome ∧
      f.protocol.isSome = truthySet a.protocol ∧
      f.protocolCategory.isSome = a.protocolCategory.isSome ∧
      f.forked = none ∧
      f.languages.isSome = a.languages.isSome ∧
      f.user.isSome = truthySet a.user ∧
      f.minFinders.isSome = truthySet a.minFinders ∧
      f.maxFinders.isSome = truthySet a.maxFinders ∧
      f.reported.isSome = a.reportedDays.isSome ∧
      f.qualityScore = a.qualityScore ∧
      f.rarityScore = a.rarityScore ∧
      f.sortField = a.sortField ∧
      f.sortDirection = a.sortDirection := by
  refine ⟨buildFilters a, ?_, ?_, ?_⟩
  · simp [buildSearchRequest, numKeys_buildFilters, h]
  · rw [numKeys_buildFilters]; exact h
  · simp [buildFilters, isSome_truthyStr]

/-- C4 witness: a single non-empty keywords field produces a one-key
filters object whose key is `keywords`. -/
theorem single_filter_key_witness :
    ∃ f, (buildSearchRequest oneKeyword).filters = some f ∧ f.numKeys = 1 ∧
      f.keywords.isSome = truthySet oneKeyword.keywords := by
  obtain ⟨f, h1, h2, h3, _⟩ := single_filter_key oneKeyword (by decide)
  exact ⟨f, h1, h2, h3⟩

/-- C4 counterexample: with exactly one filter field set — `minFinders`,
to the empty string, a value the input schema admits — the produced
request has no `filters` object at all, so no one-key filters object
exists, against the claim. -/
theorem single_filter_key_cex :
    oneEmptyMinFinders.numFilterFieldsSet = 1 ∧
    (buildSearchRequest oneEmptyMinFinders).filters = none := by
  exact ⟨by decide, by decide⟩

/-! ## C6 -/

/-- C6: each free-text list filter (firms, tags, protocolCategory,
languages) is mapped element-wise into wrapper records; the wrapped list
preserves length, the element at each index carries the input element at
the same index in its `value` field, and no element populates anything
besides `value` (the reserved `label` is left absent). -/
theorem wrapped_list_filters (a : SearchArgs) (l : List String) :
    ((buildFilters a).firms = a.firms.map wrapValues ∧
     (buildFilters a).tags = a.tags.map wrapValues ∧
     (buildFilters a).protocolCategory = a.protocolCategory.map wrapValues ∧
     (buildFilters a).languages = a.languages.map wrapValues) ∧
    (wrapValues l).length = l.length ∧
    (∀ i : Nat, (wrapValues l)[i]? = l[i]?.map (fun s => { value := s, label := none })) ∧
    (∀ vl ∈ wrapValues l, vl.label = none) := by
  refine ⟨⟨rfl, rfl, rfl, rfl⟩, by simp [wrapValues], ?_, ?_⟩
  · intro i
    simp [wrapValues, List.getElem?_map]
  · intro vl hvl
    simp only [wrapValues, List.mem_map] at hvl
    obtain ⟨s, _, rfl⟩ := hvl
    rfl

/-- C6 witness: wrapping a concrete two-element firms list. -/
theorem wrapped_list_filters_witness :
    (wrapValues ["Cyfrin", "Sherlock"]).length = 2 ∧
    (wrapValues ["Cyfrin", "Sherlock"])[0]? = some { value := "Cyfrin", label := none } ∧
    ({ value := "Cyfrin", label := none } : ValueLabel).label = none := by
  obtain ⟨-, hlen, hidx, hlab⟩ := wrapped_list_filters {} ["Cyfrin", "Sherlock"]
  exact ⟨hlen.trans (by decide), (hidx 0).trans (by decide),
    hlab { value := "Cyfrin", label := none } (by decide)⟩

/-! ## C2 -/

/-- C2 (amended): for a finding with null summary the body excerpt is
always the first 500 characters of the content followed by the truncation
marker; in particular a content body of exactly 500 characters yields
those 500 characters plus the marker — but content shorter than 500
characters also gets the marker appended (the marker is unconditional,
against the claim's second half). -/
theorem summary_fallback_marker (f : SoloditFinding) (h : f.summary = none) :
    bodyExcerpt f = f.content.take 500 ++ "..." ∧
    (f.content.length = 500 → bodyExcerpt f = f.content ++ "...") := by
  constructor
  · simp [bodyExcerpt, jsOr, h]
  · intro hlen
    simp [bodyExcerpt, jsOr, h, take_of_length_le f.content 500 (Nat.le_of_eq hlen)]

/-- C2 counterexample: a finding with null summary and a 14-character
content body renders a body excerpt different from the full content (the
truncation marker is appended), against the claim's shorter-than-500
case. -/
theorem summary_fallback_cex :
    shortContentFinding.summary = none ∧
    shortContentFinding.content.length < 500 ∧
    bodyExcerpt shortContentFinding ≠ shortContentFinding.content := by
  have htake : shortContentFinding.content.take 500 = shortContentFinding.content :=
    take_of_length_le _ _ (by decide)
  refine ⟨rfl, by decide, ?_⟩
  simp only [bodyExcerpt, jsOr, htake]
  decide

/-- C2 witness: at the 500-character boundary with null summary, the
excerpt is exactly the 500 characters plus the marker. -/
theorem summary_fallback_witness :
    boundaryFinding.summary = none ∧ boundaryFinding.content.length = 500 ∧
    bodyExcerpt boundaryFinding = boundaryFinding.content ++ "..." := by
  have hlen : boundaryFinding.content.length = 500 := by
    show (List.replicate 500 (Char.ofNat 120)).length = 500
    rw [List.length_replicate]
  exact ⟨rfl, hlen, (summary_fallback_marker boundaryFinding rfl).2 hlen⟩

/-! ## C10 -/

/-- C10: a present-but-empty summary is not rendered; the formatter falls
back to the 500-character content excerpt with the truncation marker,
exactly as if the summary were null. -/
theorem empty_summary_fallback (f : SoloditFinding) (h : f.summary = some "") :
    bodyExcerpt f = f.content.take 500 ++ "..." ∧
    formatFinding f = formatFinding { f with summary := none } := by
  have hempty : ("" : String).isEmpty = true := rfl
  constructor
  · simp [bodyExcerpt, jsOr, h, hempty]
  · simp [formatFinding, fieldRowsList, bodyExcerpt, jsOr, h, hempty, findersJoined,
      tagsJoined]

/-- C10 witness: a concrete finding with an empty-string summary falls
back to the content excerpt. -/
theorem empty_summary_fallback_witness :
    emptySummaryFinding.summary = some "" ∧
    bodyExcerpt emptySummaryFinding = emptySummaryFinding.content.take 500 ++ "..." :=
  ⟨rfl, (empty_summary_fallback emptySummaryFinding rfl).1⟩

/-! ## C3 -/

/-- C3 (amended): every non-ok HTTP response makes the invocation fail
with an error carrying the remote status code; when the body fails to
parse as JSON the message part falls back to the response's statusText
(it is empty only when the statusText is empty, not unconditionally);
when the body parses with a non-empty `message` field, that message is
carried. -/
theorem api_error_carries_status (apiKey : String) (net : SoloditRequest → HttpResponse)
    (req : SoloditRequest) (hkey : apiKey.isEmpty = false) (hok : (net req).ok = false) :
    (searchSoloditFindings apiKey net req).1 =
      Except.error (.apiError (net req).status
        (apiErrorMessagePart (net req).jsonMessage (net req).statusText)) ∧
    ((net req).jsonMessage = none →
      apiErrorMessagePart (net req).jsonMessage (net req).statusText = (net req).statusText) ∧
    (∀ m : String, (net req).jsonMessage = some (some m) → m.isEmpty = false →
      apiErrorMessagePart (net req).jsonMessage (net req).statusText = m) := by
  refine ⟨?_, ?_, ?_⟩
  · simp [searchSoloditFindings, hkey, hok]
  · intro h
    simp [apiErrorMessagePart, h, jsOr]
  · intro m h hm
    simp [apiErrorMessagePart, h, jsOr, hm]

/-- C3 counterexample: a status-500 response whose body is not valid JSON
produces an error whose message part is the non-empty statusText
"Internal Server Error", against the claim that the message part is then
empty. -/
theorem api_error_cex :
    parseFailureHttp.jsonMessage = none ∧
    (searchSoloditFindings "key" (constNet parseFailureHttp) { page := some 1 }).1 =
      Except.error (.apiError 500 "Internal Server Error") ∧
    ("Internal Server Error" : String) ≠ "" := by
  refine ⟨rfl, rfl, by decide⟩

/-- C3 witness: status 429 with body message "rate limited" fails with an
error carrying status 429 and message "rate limited". -/
theorem api_error_witness :
    (searchSoloditFindings "key" (constNet rateLimitedHttp) (getFindingByIdRequest "x")).1 =
      Except.error (.apiError 429 "rate limited") := by
  have h := api_error_carries_status "key" (constNet rateLimitedHttp)
    (getFindingByIdRequest "x") (by decide) (by decide)
  have hm := h.2.2 "rate limited" rfl (by decide)
  rw [h.1, hm]
  rfl

/-! ## C5 -/

/-- C5: whenever the API key configuration value is absent or empty, both
the remote-call wrapper and the `get_finding_by_id` handler built on it
fail with the configuration error and issue no outbound request at all. -/
theorem missing_api_key_no_call (env : Option String) (h : env = none ∨ env = some "")
    (net : SoloditRequest → HttpResponse) (req : SoloditRequest) (kw : String) :
    searchSoloditFindings (resolveApiKey env) net req =
      (Except.error (.configError configErrorMessage), []) ∧
    getFindingById (resolveApiKey env) net kw =
      (Except.error (.configError configErrorMessage), []) := by
  have hk : (resolveApiKey env).isEmpty = true := by
    rcases h with h | h <;> subst h <;> rfl
  constructor
  · simp [searchSoloditFindings, hk]
  · simp [getFindingById, searchSoloditFindings, hk]

/-- C5 witness: with the environment variable absent, and with it set to
the empty string, the invocation fails with the configuration error and
the issued-requests list is empty. -/
theorem missing_api_key_witness :
    searchSoloditFindings (resolveApiKey none) (constNet okEmptyHttp)
      (getFindingByIdRequest "x") =
      (Except.error (.configError configErrorMessage), []) ∧
    searchSoloditFindings (resolveApiKey (some "")) (constNet okEmptyHttp)
      (getFindingByIdRequest "x") =
      (Except.error (.configError configErrorMessage), []) :=
  ⟨(missing_api_key_no_call none (Or.inl rfl) (constNet okEmptyHttp)
      (getFindingByIdRequest "x") "x").1,
   (missing_api_key_no_call (some "") (Or.inr rfl) (constNet okEmptyHttp)
      (getFindingByIdRequest "x") "x").1⟩

/-! ## C7 -/

/-- C7: `get_finding_by_id` always builds exactly the request
`{page: 1, pageSize: 1, filters: {keywords}}` (no other filter key), every
outbound request it issues is that one, and a response with zero findings
renders the fixed not-found message carrying the caller's keywords string
verbatim rather than any field table. -/
theorem get_finding_request_shape (apiKey : String) (net : SoloditRequest → HttpResponse)
    (kw : String) (resp : SoloditResponse) :
    getFindingByIdRequest kw =
      { page := some 1, pageSize := some 1, filters := some { keywords := some kw } } ∧
    (∀ r ∈ (getFindingById apiKey net kw).2, r = getFindingByIdRequest kw) ∧
    (resp.findings = [] →
      getFindingByIdRender kw resp = "No finding found with ID or slug: " ++ kw) := by
  refine ⟨rfl, ?_, ?_⟩
  · intro r hr
    rw [calls_of_getFindingById] at hr
    rcases calls_of_search apiKey net (getFindingByIdRequest kw) with h | h <;> rw [h] at hr
    · exact absurd hr (List.not_mem_nil r)
    · simpa using hr
  · intro h
    simp [getFindingByIdRender, h, notFoundText]

/-- C7 witness: a mocked empty-findings response for the keywords
"nonexistent-slug" renders the fixed not-found message containing that
literal string. -/
theorem get_finding_not_found_witness :
    getFindingByIdRender "nonexistent-slug" emptyFindingsResponse =
      "No finding found with ID or slug: " ++ "nonexistent-slug" :=
  (get_finding_request_shape "key" (constNet okEmptyHttp) "nonexistent-slug"
    emptyFindingsResponse).2.2 rfl

/-! ## C8 -/

/-- C8 counterexample: on a concrete finding the detail-mode field table
differs from the list-mode field table (detail mode has an extra Impact
row), against the claim that the two tables are identical. -/
theorem detail_rows_cex :
    fieldRowsDetail comparisonFinding ≠ fieldRowsList comparisonFinding := by
  intro h
  have hlen := congrArg List.length h
  simp [fieldRowsDetail, fieldRowsList] at hlen

/-- C8 (amended): for every finding, the detail-mode field table equals
the list-mode field table with one additional Impact row inserted after
the Slug row (the list-mode heading carries the impact instead); every
other row is shared with identical values, so the table is one row
longer. -/
theorem detail_rows_insert_impact (f : SoloditFinding) :
    fieldRowsDetail f =
      (fieldRowsList f).take 2 ++
        ("**Impact:** " ++ f.impact.render) :: (fieldRowsList f).drop 2 ∧
    (fieldRowsDetail f).length = (fieldRowsList f).length + 1 := by
  exact ⟨rfl, rfl⟩

/-! ## C9 -/

/-- C9 counterexample: on a wire finding whose tag list is null the
formatter crashes (the `.map` call throws a TypeError, modelled as
`none`), against the claim that it never crashes on null nested lists. -/
theorem format_raw_cex : formatFindingRaw nullTagListFinding = none := rfl

/-- C9 (amended): the formatter never crashes when the nested lists are
present (possibly empty) — a null/absent nested list does crash it; with
both lists present, an empty finder or tag list renders the "N/A"
placeholder in its row rather than an empty string, and every one of the
ten field label lines is present as the prefix of its row regardless of
which values are absent. -/
theorem format_raw_total_on_present_lists (f : SoloditFindingRaw)
    (fs : List IssueFinder) (ts : List IssueTagScore)
    (h1 : f.issues_issue_finders = some fs) (h2 : f.issues_issuetagscore = some ts) :
    formatFindingRaw f = some (formatFinding (rawToFinding f fs ts)) ∧
    (fs = [] → (fieldRowsList (rawToFinding f fs ts))[7]? =
      some ("**Finders:** N/A (" ++ toString f.finders_count ++ " total)")) ∧
    (ts = [] → (fieldRowsList (rawToFinding f fs ts))[8]? = some "**Tags:** N/A") ∧
    List.Forall₂ (fun lbl row => ∃ rest, row = lbl ++ rest) fieldLabels
      (fieldRowsList (rawToFinding f fs ts)) := by
  refine ⟨?_, ?_, ?_, ?_⟩
  · simp [formatFindingRaw, h1, h2]
  · intro h
    subst h
    rfl
  · intro h
    subst h
    rfl
  · refine .cons ⟨_, rfl⟩ (.cons ⟨_, rfl⟩ (.cons ⟨_, rfl⟩ (.cons ⟨_, rfl⟩
      (.cons ⟨_, String.append_assoc _ _ _⟩ (.cons ⟨_, String.append_assoc _ _ _⟩
      (.cons ⟨_, rfl⟩
      (.cons ⟨_, by rw [String.append_assoc, String.append_assoc, String.append_assoc]⟩
      (.cons ⟨_, rfl⟩ (.cons ⟨_, rfl⟩ .nil)))))))))

/-- C9 witness: a wire finding with present-but-empty nested lists renders
successfully, with "N/A" in both the Tags row and the Finders row. -/
theorem format_raw_witness :
    (formatFindingRaw emptyListsFinding).isSome = true ∧
    (fieldRowsList (rawToFinding emptyListsFinding [] []))[8]? = some "**Tags:** N/A" ∧
    (fieldRowsList (rawToFinding emptyListsFinding [] []))[7]? =
      some ("**Finders:** N/A (" ++ toString emptyListsFinding.finders_count ++ " total)") := by
  have h := format_raw_total_on_present_lists emptyListsFinding [] [] rfl rfl
  refine ⟨?_, h.2.2.1 rfl, h.2.1 rfl⟩
  rw [h.1]
  rfl

end SoloditMcp
